import Mathlib

/-!
Verification development for the PolyTUI market browser
(src/polytui.py and src/polytui_simple.py).

The development shallowly embeds the data-normalization layer, the
Polymarket API client logic, and the navigation state machine of the two
Python sources.  Decoded JSON values are modelled by the inductive type
Json; Python dictionaries appear as association lists with distinct keys
(Python dict keys are unique).  Python runtime faults (TypeError,
ValueError, AttributeError, json.JSONDecodeError, ...) are modelled with
the Except monad: a value Except.error e stands for an exception
propagating to the caller, and a Python try/except block appears as a
match on the Except value that maps every error to the handler's result.
-/

/-- Model of a decoded JSON / Python value: None, bool, number (exact
rational, standing for the Python float), string, list, and dict (as an
association list with distinct keys). -/
inductive Json where
  | null : Json
  | bool (b : Bool) : Json
  | num (q : Rat) : Json
  | str (s : String) : Json
  | arr (xs : List Json) : Json
  | obj (fields : List (String × Json)) : Json
deriving Repr

/-- Association-list lookup used for Python dict access; dict keys are
unique, so taking the first binding is faithful. -/
def jlookup : List (String × Json) → String → Option Json
  | [], _ => none
  | (k, v) :: rest, key => if k = key then some v else jlookup rest key

/-- Model of Python dict.get(key, default).  Calling .get on a non-dict
value raises AttributeError. -/
def pyDictGetE (j : Json) (key : String) (default : Json) : Except String Json :=
  match j with
  | Json.obj fs => Except.ok ((jlookup fs key).getD default)
  | _ => Except.error "AttributeError"

/-- Model of Python truthiness (bool(x)) for decoded JSON values: None,
False, 0, empty string, empty list and empty dict are falsy. -/
def pyTruthy : Json → Bool
  | Json.null => false
  | Json.bool b => b
  | Json.num q => q != 0
  | Json.str s => s != ""
  | Json.arr xs => !xs.isEmpty
  | Json.obj fs => !fs.isEmpty

/-- Model of Python len(x): defined for strings, lists and dicts, raises
TypeError otherwise. -/
def pyLen : Json → Except String Nat
  | Json.str s => Except.ok s.length
  | Json.arr xs => Except.ok xs.length
  | Json.obj fs => Except.ok fs.length
  | _ => Except.error "TypeError"

/-- Model of Python x[i] for a natural index: list indexing yields the
element, string indexing yields a one-character string, an out-of-range
index raises IndexError, any other receiver raises TypeError. -/
def pyIndex : Json → Nat → Except String Json
  | Json.arr xs, i =>
      match xs.get? i with
      | some v => Except.ok v
      | none => Except.error "IndexError"
  | Json.str s, i =>
      match s.toList.get? i with
      | some c => Except.ok (Json.str (String.mk [c]))
      | none => Except.error "IndexError"
  | _, _ => Except.error "TypeError"

/-- Model of Python x[:n] slicing: defined for strings and lists, raises
TypeError otherwise. -/
def pySlice (j : Json) (n : Nat) : Except String Json :=
  match j with
  | Json.str s => Except.ok (Json.str (String.mk (s.toList.take n)))
  | Json.arr xs => Except.ok (Json.arr (xs.take n))
  | _ => Except.error "TypeError"

/-- Numeric value of a run of decimal digit characters. -/
def digitsVal (cs : List Char) : Nat :=
  cs.foldl (fun a c => a * 10 + (c.toNat - 48)) 0

/-- Unsigned part of Python float(string) parsing: digits, optionally
followed by a decimal point and further digits, with at least one digit
overall.  Exponent, inf and nan forms are outside the model's scope; no
claim in this development depends on them. -/
def parseUnsignedFloat (cs : List Char) : Option Rat :=
  let p := cs.span Char.isDigit
  match p.2 with
  | [] => if p.1.isEmpty then none else some (mkRat (digitsVal p.1) 1)
  | '.' :: rest2 =>
      let q := rest2.span Char.isDigit
      if q.2.isEmpty && !(p.1.isEmpty && q.1.isEmpty) then
        some (mkRat (digitsVal p.1 * 10 ^ q.1.length + digitsVal q.1) (10 ^ q.1.length))
      else none
  | _ => none

/-- Model of Python float(string): surrounding spaces stripped, optional
sign, then an unsigned decimal literal. -/
def parsePyFloat (cs0 : List Char) : Option Rat :=
  let cs := ((cs0.dropWhile (· = ' ')).reverse.dropWhile (· = ' ')).reverse
  match cs with
  | '-' :: rest => (parseUnsignedFloat rest).map Neg.neg
  | '+' :: rest => parseUnsignedFloat rest
  | _ => parseUnsignedFloat cs

/-- Model of Python float(x): numbers pass through, booleans become 0/1,
strings are parsed (ValueError on failure), and every other value raises
TypeError. -/
def pyFloat : Json → Except String Rat
  | Json.num q => Except.ok q
  | Json.bool b => Except.ok (if b then 1 else 0)
  | Json.str s =>
      match parsePyFloat s.toList with
      | some q => Except.ok q
      | none => Except.error "ValueError"
  | _ => Except.error "TypeError"

/-- Whitespace skipping for the JSON grammar. -/
def skipWs : List Char → List Char
  | c :: cs => if c = ' ' ∨ c = '\n' ∨ c = '\t' ∨ c = '\r' then skipWs cs else c :: cs
  | [] => []

/-- JSON string body after the opening quote: plain characters up to the
closing quote.  Escape sequences are outside the model's scope; no claim
depends on them. -/
def parseJsonStringAux : List Char → Option (List Char × List Char)
  | [] => none
  | c :: cs =>
      if c = '\x22' then some ([], cs)
      else if c = '\x5c' then none
      else (parseJsonStringAux cs).map (fun p => (c :: p.1, p.2))

/-- JSON number: optional minus sign, digits, optional fractional part.
Exponents are outside the model's scope; no claim depends on them. -/
def parseJsonNumber (cs : List Char) : Option (Rat × List Char) :=
  let sp := match cs with
            | '-' :: r => (true, r)
            | _ => (false, cs)
  let p := sp.2.span Char.isDigit
  if p.1.isEmpty then none
  else
    match p.2 with
    | '.' :: r2 =>
        let q := r2.span Char.isDigit
        if q.1.isEmpty then none
        else
          let n : Int := digitsVal p.1 * 10 ^ q.1.length + digitsVal q.1
          some (mkRat (if sp.1 then -n else n) (10 ^ q.1.length), q.2)
    | r2 =>
        let n : Int := digitsVal p.1
        some (mkRat (if sp.1 then -n else n) 1, r2)

mutual

/-- Fuel-indexed recursive-descent parser for a JSON value, the model of
Python json.loads applied to the string-encoded fields. -/
def parseValue : Nat → List Char → Option (Json × List Char)
  | 0, _ => none
  | Nat.succ fuel, cs =>
      match skipWs cs with
      | '\x22' :: rest => (parseJsonStringAux rest).map (fun p => (Json.str (String.mk p.1), p.2))
      | 'n' :: 'u' :: 'l' :: 'l' :: rest => some (Json.null, rest)
      | 't' :: 'r' :: 'u' :: 'e' :: rest => some (Json.bool true, rest)
      | 'f' :: 'a' :: 'l' :: 's' :: 'e' :: rest => some (Json.bool false, rest)
      | '[' :: rest =>
          (match skipWs rest with
           | ']' :: r2 => some (Json.arr [], r2)
           | r1 => (parseElems fuel r1).map (fun p => (Json.arr p.1, p.2)))
      | '\x7b' :: rest =>
          (match skipWs rest with
           | '\x7d' :: r2 => some (Json.obj [], r2)
           | r1 => (parseMembers fuel r1).map (fun p => (Json.obj p.1, p.2)))
      | rest => (parseJsonNumber rest).map (fun p => (Json.num p.1, p.2))

/-- Comma-separated JSON array elements up to the closing bracket. -/
def parseElems : Nat → List Char → Option (List Json × List Char)
  | 0, _ => none
  | Nat.succ fuel, cs => do
      let p ← parseValue fuel cs
      match skipWs p.2 with
      | ',' :: r2 => do
          let q ← parseElems fuel r2
          some (p.1 :: q.1, q.2)
      | ']' :: r2 => some ([p.1], r2)
      | _ => none

/-- Comma-separated JSON object members up to the closing brace. -/
def parseMembers : Nat → List Char → Option (List (String × Json) × List Char)
  | 0, _ => none
  | Nat.succ fuel, cs =>
      match skipWs cs with
      | '\x22' :: r0 => do
          let kp ← parseJsonStringAux r0
          match skipWs kp.2 with
          | ':' :: r2 => do
              let vp ← parseValue fuel r2
              match skipWs vp.2 with
              | ',' :: r4 => do
                  let mp ← parseMembers fuel r4
                  some ((String.mk kp.1, vp.1) :: mp.1, mp.2)
              | '\x7d' :: r4 => some ([(String.mk kp.1, vp.1)], r4)
              | _ => none
          | _ => none
      | _ => none

end

/-- Model of Python json.loads on a string: parse one JSON value and
require only whitespace to remain. -/
def json_loads (s : String) : Option Json :=
  match parseValue (s.length + 1) s.toList with
  | some p => if (skipWs p.2).isEmpty then some p.1 else none
  | none => none

/-- A decoded JSON value is a numeric list when it is a list all of whose
entries convert under Python float(). -/
def isNumericList : Json → Bool
  | Json.arr xs => xs.all (fun j => (pyFloat j).toBool)
  | _ => false

/-- A string validly encodes a numeric list when json.loads succeeds on it
and the decoded value is a numeric list. -/
def validNumericListEncoding (s : String) : Bool :=
  match json_loads s with
  | some j => isNumericList j
  | none => false

/-!
API client (class PolymarketClient in src/polytui.py and
src/polytui_simple.py).  Network transport is an external collaborator:
each operation takes the outcome of its HTTP request(s) as a parameter —
Except.error for a raised transport exception, Except.ok for a response
that arrived — and additionally reports which endpoints it called, so
that call-count properties can be stated.
-/

/-- Normalization step of PolymarketClient.get_markets (polytui.py lines
88-113, identically polytui_simple.py lines 46-65): a list body passes
through, a dict body contributes its markets field (defaulting to the
empty list), and any other body makes data.get raise AttributeError,
which the surrounding except handler turns into the empty list. -/
def extract_markets (data : Json) : Json :=
  match data with
  | Json.arr xs => Json.arr xs
  | Json.obj fs => (jlookup fs "markets").getD (Json.arr [])
  | _ => Json.arr []

/-- Full result of PolymarketClient.get_markets on a decoded response
body: the markets/cursor wrapper dict. -/
def get_markets (data : Json) : Json :=
  Json.obj [("markets", extract_markets data), ("cursor", Json.null)]

/-- An HTTP response: status code and decoded JSON body. -/
structure HttpResp where
  status : Nat
  body : Json
deriving Repr

/-- The two price endpoints a client may contact. -/
inductive PriceCall where
  | price : PriceCall
  | midpoint : PriceCall
deriving DecidableEq, Repr

/-- Model of PolymarketClient.get_price in src/polytui.py (lines 146-168):
try the price endpoint; on a 200 return its body; otherwise try the
midpoint endpoint; on a 200 return its body; otherwise return the error
dict.  A raised transport exception is caught and yields the empty dict.
The second component lists the endpoints contacted, in order. -/
def get_price (primary secondary : Except String HttpResp) : Json × List PriceCall :=
  match primary with
  | Except.error _ => (Json.obj [], [PriceCall.price])
  | Except.ok r =>
      if r.status = 200 then (r.body, [PriceCall.price])
      else
        match secondary with
        | Except.error _ => (Json.obj [], [PriceCall.price, PriceCall.midpoint])
        | Except.ok r2 =>
            if r2.status = 200 then (r2.body, [PriceCall.price, PriceCall.midpoint])
            else (Json.obj [("error", Json.str ("Status code: " ++ toString r2.status))],
                  [PriceCall.price, PriceCall.midpoint])

/-- Model of PolymarketClient.get_price in src/polytui_simple.py (lines
99-113): a single request to the midpoint endpoint; a 200 returns its
body, any other status returns the error dict, and a raised transport
exception yields the empty dict.  No other endpoint is contacted. -/
def simple_get_price (midpointResp : Except String HttpResp) : Json × List PriceCall :=
  match midpointResp with
  | Except.error _ => (Json.obj [], [PriceCall.midpoint])
  | Except.ok r =>
      if r.status = 200 then (r.body, [PriceCall.midpoint])
      else (Json.obj [("error", Json.str ("Status code: " ++ toString r.status))],
            [PriceCall.midpoint])

/-- Credential environment of PolymarketClient.__init__ (polytui.py lines
76-86): the three optional environment variables POLY_API_KEY,
POLY_API_SECRET and ETHEREUM_PRIVATE_KEY.  os.getenv yields None for an
unset variable. -/
structure Credentials where
  api_key : Option String
  api_secret : Option String
  private_key : Option String
deriving DecidableEq, Repr

/-- Python truthiness of an os.getenv result: None and the empty string
are falsy. -/
def envTruthy : Option String → Bool
  | none => false
  | some s => s != ""

/-- Model of self.is_authenticated, set to bool(api_key and private_key)
in __init__; the api_secret variable is read but never consulted. -/
def is_authenticated (c : Credentials) : Bool :=
  envTruthy c.api_key && envTruthy c.private_key

/-- The authentication capability as the specification words it: API key,
API secret and signing key all present. -/
def hasAuthCapability (c : Credentials) : Bool :=
  envTruthy c.api_key && envTruthy c.api_secret && envTruthy c.private_key

/-- The structured error value returned when authentication is missing. -/
def authRequired : Json := Json.obj [("error", Json.str "Authentication required")]

/-- The empty-result value of get_positions. -/
def emptyPositions : Json := Json.obj [("positions", Json.arr [])]

/-- Model of PolymarketClient.place_order (polytui.py lines 187-211):
without is_authenticated the AuthRequired dict is returned before any
request; otherwise one POST is issued, whose decoded body is returned on
success and whose raised exception is caught into an error dict.  The
second component counts network requests issued. -/
def place_order (c : Credentials) (postResp : Except String Json) : Json × Nat :=
  if !(is_authenticated c) then (authRequired, 0)
  else
    match postResp with
    | Except.ok j => (j, 1)
    | Except.error e => (Json.obj [("error", Json.str e)], 1)

/-- Model of PolymarketClient.get_positions (polytui.py lines 170-185):
without is_authenticated the empty positions dict is returned before any
request; otherwise one GET is issued, whose decoded body is returned on
success; a raised exception is caught and the empty positions dict is
returned.  The second component counts network requests issued. -/
def get_positions (c : Credentials) (resp : Except String Json) : Json × Nat :=
  if !(is_authenticated c) then (emptyPositions, 0)
  else
    match resp with
    | Except.ok j => (j, 1)
    | Except.error _ => (emptyPositions, 1)

/-!
Output projection (rendering) functions.  Each models the value-level
content of a display function of the source; string formatting (width
padding, thousands separators, the percent sign) is display-only and is
not modelled, the underlying numeric values are.
-/

/-- Try-block of the yes-price computation in print_market
(polytui_simple.py lines 142-144): json.loads the outcomePrices field
(defaulting to the literal pair-of-halves encoding), then float the first
entry and scale to percent when the decoded value is non-empty. -/
def print_market_yes_try (market : Json) : Except String Rat :=
  match pyDictGetE market "outcomePrices" (Json.str "[\"0.5\", \"0.5\"]") with
  | Except.error e => Except.error e
  | Except.ok field =>
      match field with
      | Json.str s =>
          match json_loads s with
          | none => Except.error "JSONDecodeError"
          | some parsed =>
              match pyLen parsed with
              | Except.error e => Except.error e
              | Except.ok n =>
                  if n > 0 then
                    match pyIndex parsed 0 with
                    | Except.error e => Except.error e
                    | Except.ok x =>
                        match pyFloat x with
                        | Except.error e => Except.error e
                        | Except.ok v => Except.ok (v * 100)
                  else Except.ok 50
      | _ => Except.error "TypeError"

/-- The except handler around the try-block (polytui_simple.py lines
145-146): any exception degrades the yes price to 50. -/
def print_market_yes (market : Json) : Rat :=
  match print_market_yes_try market with
  | Except.ok v => v
  | Except.error _ => 50

/-- Model of print_market (polytui_simple.py lines 135-149): the question
cut to 55 characters, the volume and liquidity through float with default
0, and the yes percentage.  The float calls on volume and liquidity are
not inside any try, so their exceptions propagate to the caller. -/
def print_market (market : Json) : Except String (Json × Rat × Rat × Rat) :=
  match pyDictGetE market "question" (Json.str "N/A") with
  | Except.error e => Except.error e
  | Except.ok q =>
      match pySlice q 55 with
      | Except.error e => Except.error e
      | Except.ok question =>
          match pyDictGetE market "volume" (Json.num 0) with
          | Except.error e => Except.error e
          | Except.ok vraw =>
              match pyFloat vraw with
              | Except.error e => Except.error e
              | Except.ok volume =>
                  match pyDictGetE market "liquidity" (Json.num 0) with
                  | Except.error e => Except.error e
                  | Except.ok lraw =>
                      match pyFloat lraw with
                      | Except.error e => Except.error e
                      | Except.ok liquidity =>
                          Except.ok (question, volume, liquidity, print_market_yes market)

/-- Try-block of the price pair in print_market_detail (polytui_simple.py
lines 161-164): decode outcomePrices (same default), then float entries 0
and 1 scaled to percent, each defaulting to 50 when the decoded value is
too short. -/
def print_market_detail_prices_try (market : Json) : Except String (Rat × Rat) :=
  match pyDictGetE market "outcomePrices" (Json.str "[\"0.5\", \"0.5\"]") with
  | Except.error e => Except.error e
  | Except.ok field =>
      match field with
      | Json.str s =>
          match json_loads s with
          | none => Except.error "JSONDecodeError"
          | some parsed =>
              match pyLen parsed with
              | Except.error e => Except.error e
              | Except.ok n =>
                  match (if n > 0 then
                           match pyIndex parsed 0 with
                           | Except.error e => Except.error e
                           | Except.ok x =>
                               match pyFloat x with
                               | Except.error e => Except.error e
                               | Except.ok v => Except.ok (v * 100)
                         else Except.ok 50) with
                  | Except.error e => Except.error e
                  | Except.ok yes =>
                      match (if n > 1 then
                               match pyIndex parsed 1 with
                               | Except.error e => Except.error e
                               | Except.ok x =>
                                   match pyFloat x with
                                   | Except.error e => Except.error e
                                   | Except.ok v => Except.ok (v * 100)
                             else Except.ok 50) with
                      | Except.error e => Except.error e
                      | Except.ok no => Except.ok (yes, no)
      | _ => Except.error "TypeError"

/-- The except handler around that try-block (polytui_simple.py lines
165-167): any exception degrades both prices to 50. -/
def print_market_detail_prices (market : Json) : Rat × Rat :=
  match print_market_detail_prices_try market with
  | Except.ok p => p
  | Except.error _ => (50, 50)

/-- Per-market line of PolyTUIScreen.update_market_list (polytui.py lines
294-299): question cut to 50 characters, float volume with default 0, and
float yesPrice with default 0.5 scaled to percent.  None of the float
calls is inside a try, so their exceptions propagate out of the
renderer (load_markets, its caller, catches them into a status
message). -/
def market_list_entry (market : Json) : Except String (Json × Rat × Rat) :=
  match pyDictGetE market "question" (Json.str "N/A") with
  | Except.error e => Except.error e
  | Except.ok q =>
      match pySlice q 50 with
      | Except.error e => Except.error e
      | Except.ok question =>
          match pyDictGetE market "volume" (Json.num 0) with
          | Except.error e => Except.error e
          | Except.ok vraw =>
              match pyFloat vraw with
              | Except.error e => Except.error e
              | Except.ok volume =>
                  match pyDictGetE market "yesPrice" (Json.num (mkRat 1 2)) with
                  | Except.error e => Except.error e
                  | Except.ok praw =>
                      match pyFloat praw with
                      | Except.error e => Except.error e
                      | Except.ok yes_prob => Except.ok (question, volume, yes_prob * 100)

/-- Rendering loop over a market list: the first raised exception aborts
the whole render, as the Python for-loop does. -/
def renderEntries : List Json → Except String (List (Json × Rat × Rat))
  | [] => Except.ok []
  | m :: rest =>
      match market_list_entry m with
      | Except.error e => Except.error e
      | Except.ok entry =>
          match renderEntries rest with
          | Except.error e => Except.error e
          | Except.ok tail => Except.ok (entry :: tail)

/-- The market-list rendering loop of update_market_list over the first
20 markets. -/
def update_market_list (markets : List Json) : Except String (List (Json × Rat × Rat)) :=
  renderEntries (markets.take 20)

/-- Spread section of PolyTUIScreen.update_orderbook_display (polytui.py
lines 379-383): when both bids and asks are truthy, float the price of
the first bid and of the first ask and report bestAsk minus bestBid;
otherwise no spread is shown. -/
def update_orderbook_spread (orderbook : Json) : Except String (Option Rat) :=
  match pyDictGetE orderbook "bids" (Json.arr []) with
  | Except.error e => Except.error e
  | Except.ok bids =>
      match pyDictGetE orderbook "asks" (Json.arr []) with
      | Except.error e => Except.error e
      | Except.ok asks =>
          if pyTruthy bids && pyTruthy asks then
            match pyIndex bids 0 with
            | Except.error e => Except.error e
            | Except.ok b0 =>
                match pyDictGetE b0 "price" (Json.num 0) with
                | Except.error e => Except.error e
                | Except.ok braw =>
                    match pyFloat braw with
                    | Except.error e => Except.error e
                    | Except.ok best_bid =>
                        match pyIndex asks 0 with
                        | Except.error e => Except.error e
                        | Except.ok a0 =>
                            match pyDictGetE a0 "price" (Json.num 0) with
                            | Except.error e => Except.error e
                            | Except.ok araw =>
                                match pyFloat araw with
                                | Except.error e => Except.error e
                                | Except.ok best_ask => Except.ok (some (best_ask - best_bid))
          else Except.ok none

/-- Spread section of print_orderbook (polytui_simple.py lines 214-219),
computed the same way as in the TUI renderer. -/
def print_orderbook_spread (orderbook : Json) : Except String (Option Rat) :=
  match pyDictGetE orderbook "bids" (Json.arr []) with
  | Except.error e => Except.error e
  | Except.ok bids =>
      match pyDictGetE orderbook "asks" (Json.arr []) with
      | Except.error e => Except.error e
      | Except.ok asks =>
          if pyTruthy bids && pyTruthy asks then
            match pyIndex bids 0 with
            | Except.error e => Except.error e
            | Except.ok b0 =>
                match pyDictGetE b0 "price" (Json.num 0) with
                | Except.error e => Except.error e
                | Except.ok braw =>
                    match pyFloat braw with
                    | Except.error e => Except.error e
                    | Except.ok best_bid =>
                        match pyIndex asks 0 with
                        | Except.error e => Except.error e
                        | Except.ok a0 =>
                            match pyDictGetE a0 "price" (Json.num 0) with
                            | Except.error e => Except.error e
                            | Except.ok araw =>
                                match pyFloat araw with
                                | Except.error e => Except.error e
                                | Except.ok best_ask => Except.ok (some (best_ask - best_bid))
          else Except.ok none

/-!
Navigation state machine (class PolyTUIScreen in src/polytui.py).  The
mutable screen fields form the state; each action method is a transition.
Display updates (update_market_list, update_market_detail,
update_orderbook_display, update_status) render the state without
mutating these fields and are modelled separately above.
-/

/-- Screen state fields assigned in PolyTUIScreen.__init__ (polytui.py
lines 243-250); search_query is never consulted by any transition and is
omitted. -/
structure TUIState where
  markets : List Json
  selected_index : Int
  selected_market : Option Json
  orderbook : Json

/-- The empty order book dict assigned in __init__ and in
action_clear_selection. -/
def emptyOrderbook : Json := Json.obj [("bids", Json.arr []), ("asks", Json.arr [])]

/-- Initial screen state (polytui.py lines 246-249). -/
def initState : TUIState :=
  { markets := [], selected_index := 0, selected_market := none, orderbook := emptyOrderbook }

/-- Model of PolyTUIScreen.load_markets (polytui.py lines 274-288): the
markets entry of the client response replaces self.markets; no other
state field is assigned (the remaining statements update the status line
and re-render the list).  The parameter is the fetched markets list. -/
def load_markets (fetched : List Json) (s : TUIState) : TUIState :=
  { s with markets := fetched }

/-- Model of PolyTUIScreen.action_refresh (polytui.py lines 443-445),
which just calls load_markets. -/
def action_refresh (fetched : List Json) (s : TUIState) : TUIState :=
  load_markets fetched s

/-- Model of PolyTUIScreen.action_cursor_down (polytui.py lines 408-412):
with a truthy markets list, advance selected_index modulo len(markets);
Python int modulo by a positive length agrees with Int emod. -/
def action_cursor_down (s : TUIState) : TUIState :=
  if s.markets.isEmpty then s
  else { s with selected_index := (s.selected_index + 1) % (s.markets.length : Int) }

/-- Model of PolyTUIScreen.action_cursor_up (polytui.py lines 414-418). -/
def action_cursor_up (s : TUIState) : TUIState :=
  if s.markets.isEmpty then s
  else { s with selected_index := (s.selected_index - 1) % (s.markets.length : Int) }

/-- Model of PolyTUIScreen.action_select_market (polytui.py lines
420-433): under the guard, selected_market is assigned the market at the
cursor; then the market's tokens are consulted and, when a truthy first
tokenId exists, the fetched order book is assigned.  A Python exception
between the two assignments (a non-dict market or token) leaves the state
with only selected_market mutated, which the model reproduces; fetchBook
stands for client.get_orderbook. -/
def action_select_market (fetchBook : Json → Json) (s : TUIState) : TUIState :=
  if s.markets.isEmpty then s
  else if 0 ≤ s.selected_index ∧ s.selected_index < (s.markets.length : Int) then
    let m := s.markets.getD s.selected_index.toNat Json.null
    let s1 := { s with selected_market := some m }
    match pyDictGetE m "tokens" (Json.arr []) with
    | Except.error _ => s1
    | Except.ok tokens =>
        if pyTruthy tokens then
          match pyIndex tokens 0 with
          | Except.error _ => s1
          | Except.ok t0 =>
              match pyDictGetE t0 "tokenId" Json.null with
              | Except.error _ => s1
              | Except.ok tokenId =>
                  if pyTruthy tokenId then { s1 with orderbook := fetchBook tokenId }
                  else s1
        else s1
  else s

/-- Model of PolyTUIScreen.action_clear_selection (polytui.py lines
435-441): selected_market cleared, selected_index reset to 0, the order
book replaced by the empty book. -/
def action_clear_selection (s : TUIState) : TUIState :=
  { s with selected_market := none, selected_index := 0, orderbook := emptyOrderbook }

/-!
Claim theorems.
-/

/-- C1 (amended): applying the Refresh event wholesale-replaces the
markets list with the newly fetched list, and leaves selected_index,
selected_market and the current order book unchanged — load_markets
assigns only self.markets; no reset or clearing occurs. -/
theorem C1_refresh_replaces_list_only :
    ∀ (fetched : List Json) (s : TUIState),
      (action_refresh fetched s).markets = fetched ∧
      (action_refresh fetched s).selected_index = s.selected_index ∧
      (action_refresh fetched s).selected_market = s.selected_market ∧
      (action_refresh fetched s).orderbook = s.orderbook :=
  fun _ _ => ⟨rfl, rfl, rfl, rfl⟩

/-- C1 counterexample: from a state with selected_index 3, a selected
market and a non-empty order book, Refresh leaves selected_index at 3
(not 0), the selection set and the order book unchanged — refuting the
claimed reset of selected_index and clearing of selected_market and
currentOrderBook. -/
theorem C1_refresh_counterexample :
    (action_refresh [] ⟨[], 3, some Json.null, Json.null⟩).selected_index = 3 ∧
    (3 : Int) ≠ 0 ∧
    (action_refresh [] ⟨[], 3, some Json.null, Json.null⟩).selected_market = some Json.null ∧
    (action_refresh [] ⟨[], 3, some Json.null, Json.null⟩).orderbook ≠ emptyOrderbook :=
  ⟨rfl, by decide, rfl, fun h => Json.noConfusion h⟩

/-- C3: normalizing a bare list payload and an object payload whose
markets field holds the same list yields the same market sequence, and a
payload matching neither shape yields the empty sequence rather than an
error. -/
theorem C3_dual_shape_normalization :
    ∀ ms : List Json,
      extract_markets (Json.arr ms) = Json.arr ms ∧
      (∀ fs, jlookup fs "markets" = some (Json.arr ms) →
        extract_markets (Json.obj fs) = Json.arr ms) ∧
      (∀ data : Json, (∀ xs, data ≠ Json.arr xs) →
        (∀ fs, data = Json.obj fs → jlookup fs "markets" = none) →
        extract_markets data = Json.arr []) := by
  intro ms
  refine ⟨rfl, ?_, ?_⟩
  · intro fs h
    simp [extract_markets, h]
  · intro data h1 h2
    cases data with
    | arr xs => exact absurd rfl (h1 xs)
    | obj fs => simp [extract_markets, h2 fs rfl]
    | null => rfl
    | bool b => rfl
    | num q => rfl
    | str s => rfl

/-- C3 witness: the two payload shapes agree on a concrete one-market
list, and a numeric payload (matching neither shape) normalizes to the
empty sequence. -/
theorem C3_dual_shape_normalization_witness :
    jlookup [("markets", Json.arr [Json.null])] "markets" = some (Json.arr [Json.null]) ∧
    extract_markets (Json.obj [("markets", Json.arr [Json.null])]) = Json.arr [Json.null] ∧
    extract_markets (Json.num 7) = Json.arr [] :=
  ⟨rfl,
   (C3_dual_shape_normalization [Json.null]).2.1 [("markets", Json.arr [Json.null])] rfl,
   (C3_dual_shape_normalization [Json.null]).2.2 (Json.num 7)
     (fun _ h => Json.noConfusion h) (fun _ h => Json.noConfusion h)⟩

/-- C4 (amended): place_order fails fast with the AuthRequired value and
zero network calls exactly when is_authenticated is false, and
is_authenticated consults only the API key and the signing key — the API
secret is never checked, so the capability the claim describes (all three
present) is not what gates the call. -/
theorem C4_place_order_auth_gate :
    ∀ (c : Credentials) (resp : Except String Json),
      (is_authenticated c = false → place_order c resp = (authRequired, 0)) ∧
      (is_authenticated c = true → (place_order c resp).2 = 1) ∧
      is_authenticated c = (envTruthy c.api_key && envTruthy c.private_key) := by
  intro c resp
  refine ⟨?_, ?_, rfl⟩
  · intro h
    simp [place_order, h]
  · intro h
    cases resp <;> simp [place_order, h]

/-- C4 counterexample: with the API key and signing key set but the API
secret missing, the claimed authentication capability is absent, yet
place_order issues one network call and returns the transport result, not
AuthRequired — refuting the claim that the capability (all three keys)
gates the request. -/
theorem C4_api_secret_ignored_counterexample :
    hasAuthCapability ⟨some "k", none, some "p"⟩ = false ∧
    place_order ⟨some "k", none, some "p"⟩ (Except.ok Json.null) = (Json.null, 1) ∧
    Json.null ≠ authRequired :=
  ⟨rfl, rfl, fun h => Json.noConfusion h⟩

/-- C4 witness: with no credentials at all, place_order returns
AuthRequired and performs zero network calls. -/
theorem C4_place_order_auth_gate_witness :
    is_authenticated ⟨none, none, none⟩ = false ∧
    place_order ⟨none, none, none⟩ (Except.ok Json.null) = (authRequired, 0) :=
  ⟨rfl, (C4_place_order_auth_gate ⟨none, none, none⟩ (Except.ok Json.null)).1 rfl⟩

/-- C5 (amended): the polytui.py get_price queries the price endpoint
first, returns a 200 body without contacting the midpoint endpoint, falls
back to the midpoint exactly once on a non-200 primary status, and
surfaces a failure value when the fallback also returns non-200; a
transport exception on the primary returns the empty dict without
consulting the fallback.  The polytui_simple.py get_price, by contrast,
contacts only the midpoint endpoint — it has no primary query and no
retry. -/
theorem C5_get_price_fallback :
    (∀ (r : HttpResp) (sec : Except String HttpResp), r.status = 200 →
      get_price (Except.ok r) sec = (r.body, [PriceCall.price])) ∧
    (∀ r r2 : HttpResp, r.status ≠ 200 → r2.status = 200 →
      get_price (Except.ok r) (Except.ok r2) =
        (r2.body, [PriceCall.price, PriceCall.midpoint])) ∧
    (∀ r r2 : HttpResp, r.status ≠ 200 → r2.status ≠ 200 →
      get_price (Except.ok r) (Except.ok r2) =
        (Json.obj [("error", Json.str ("Status code: " ++ toString r2.status))],
         [PriceCall.price, PriceCall.midpoint])) ∧
    (∀ (e : String) (sec : Except String HttpResp),
      get_price (Except.error e) sec = (Json.obj [], [PriceCall.price])) ∧
    (∀ resp, (simple_get_price resp).2 = [PriceCall.midpoint]) := by
  refine ⟨?_, ?_, ?_, ?_, ?_⟩
  · intro r sec h
    simp [get_price, h]
  · intro r r2 h h2
    simp [get_price, h, h2]
  · intro r r2 h h2
    simp [get_price, h, h2]
  · intro e sec
    rfl
  · intro resp
    cases resp with
    | error e => rfl
    | ok r =>
        simp only [simple_get_price]
        split <;> rfl

/-- C5 counterexample: the polytui_simple.py get_price, on a 500 from the
midpoint endpoint, surfaces the failure after exactly one call, and the
primary price endpoint is never queried — refuting the claim that
getPrice queries the primary source first and retries against the
secondary before surfacing failure. -/
theorem C5_simple_no_fallback_counterexample :
    simple_get_price (Except.ok ⟨500, Json.null⟩) =
      (Json.obj [("error", Json.str "Status code: 500")], [PriceCall.midpoint]) ∧
    PriceCall.price ∉ (simple_get_price (Except.ok ⟨500, Json.null⟩)).2 :=
  ⟨rfl, by decide⟩

/-- C5 witness: a 200 primary is returned without contacting the
midpoint, and a 500 primary falls back to a 200 midpoint. -/
theorem C5_get_price_fallback_witness :
    get_price (Except.ok ⟨200, Json.str "p"⟩) (Except.error "down") =
      (Json.str "p", [PriceCall.price]) ∧
    get_price (Except.ok ⟨500, Json.null⟩) (Except.ok ⟨200, Json.str "m"⟩) =
      (Json.str "m", [PriceCall.price, PriceCall.midpoint]) :=
  ⟨C5_get_price_fallback.1 ⟨200, Json.str "p"⟩ (Except.error "down") rfl,
   C5_get_price_fallback.2.1 ⟨500, Json.null⟩ ⟨200, Json.str "m"⟩ (by decide) rfl⟩

/-- C10: get_positions without is_authenticated returns the empty-result
positions dict immediately with zero network calls; the result is not the
AuthRequired error value, and it coincides with what an authenticated
caller receives when the API reports no positions — so an unauthenticated
caller cannot distinguish the two. -/
theorem C10_get_positions_unauthenticated :
    ∀ (c c2 : Credentials) (resp : Except String Json),
      is_authenticated c = false → is_authenticated c2 = true →
      get_positions c resp = (emptyPositions, 0) ∧
      (get_positions c resp).1 ≠ authRequired ∧
      (get_positions c2 (Except.ok emptyPositions)).1 = (get_positions c resp).1 := by
  intro c c2 resp h h2
  refine ⟨by simp [get_positions, h], ?_, ?_⟩
  · simp [get_positions, h, emptyPositions, authRequired]
  · simp [get_positions, h, h2]

/-- C10 witness: with no credentials, get_positions yields the empty
positions dict and zero calls. -/
theorem C10_get_positions_unauthenticated_witness :
    is_authenticated ⟨none, none, none⟩ = false ∧
    is_authenticated ⟨some "k", none, some "p"⟩ = true ∧
    get_positions ⟨none, none, none⟩ (Except.ok Json.null) = (emptyPositions, 0) :=
  ⟨rfl, rfl,
   (C10_get_positions_unauthenticated ⟨none, none, none⟩ ⟨some "k", none, some "p"⟩
     (Except.ok Json.null) rfl rfl).1⟩

/-- Cursor movement never touches the markets list. -/
theorem cursor_down_markets (s : TUIState) :
    (action_cursor_down s).markets = s.markets := by
  unfold action_cursor_down
  split <;> rfl

/-- Iterated cursor movement never touches the markets list. -/
theorem iterate_cursor_down_markets (k : Nat) (s : TUIState) :
    (action_cursor_down^[k] s).markets = s.markets := by
  induction k generalizing s with
  | zero => rfl
  | succ k ih => rw [Function.iterate_succ_apply', cursor_down_markets, ih]

/-- One cursor-down step on a non-empty list advances the index modulo
the list length. -/
theorem cursor_down_index (s : TUIState) (h : s.markets ≠ []) :
    (action_cursor_down s).selected_index =
      (s.selected_index + 1) % (s.markets.length : Int) := by
  unfold action_cursor_down
  rw [if_neg (by simp [List.isEmpty_iff, h])]

/-- One cursor-up step on a non-empty list decreases the index modulo the
list length. -/
theorem cursor_up_index (s : TUIState) (h : s.markets ≠ []) :
    (action_cursor_up s).selected_index =
      (s.selected_index - 1) % (s.markets.length : Int) := by
  unfold action_cursor_up
  rw [if_neg (by simp [List.isEmpty_iff, h])]

/-- Iterated cursor-down steps accumulate modulo the list length. -/
theorem iterate_cursor_down_index (k : Nat) (s : TUIState) (h : s.markets ≠ []) :
    (action_cursor_down^[k + 1] s).selected_index =
      (s.selected_index + (k : Int) + 1) % (s.markets.length : Int) := by
  induction k generalizing s with
  | zero =>
      rw [Function.iterate_succ_apply', Function.iterate_zero_apply,
        cursor_down_index s h]
      norm_num
  | succ k ih =>
      rw [Function.iterate_succ_apply',
        cursor_down_index _ (by rw [iterate_cursor_down_markets]; exact h),
        iterate_cursor_down_markets, ih s h]
      rw [Int.add_emod ((s.selected_index + (k : Int) + 1) % (s.markets.length : Int)) 1,
        Int.emod_emod_of_dvd _ dvd_rfl, ← Int.add_emod]
      push_cast
      ring_nf

/-- C7: on a non-empty markets list, CursorDown and CursorUp move the
index to (index plus or minus 1) modulo the list length (Python int
modulo by a positive length agrees with Int emod); applying CursorDown
len(markets) times from an in-range index returns it to its starting
value; and both events are no-ops when markets is empty. -/
theorem C7_cursor_wraparound :
    ∀ s : TUIState,
      (s.markets ≠ [] →
        (action_cursor_down s).selected_index =
          (s.selected_index + 1) % (s.markets.length : Int) ∧
        (action_cursor_up s).selected_index =
          (s.selected_index - 1) % (s.markets.length : Int)) ∧
      (s.markets ≠ [] → 0 ≤ s.selected_index →
        s.selected_index < (s.markets.length : Int) →
        (action_cursor_down^[s.markets.length] s).selected_index = s.selected_index) ∧
      (s.markets = [] → action_cursor_down s = s ∧ action_cursor_up s = s) := by
  intro s
  refine ⟨fun h => ⟨cursor_down_index s h, cursor_up_index s h⟩, ?_, ?_⟩
  · intro h h0 hlt
    obtain ⟨m, hm⟩ : ∃ m, s.markets.length = m + 1 :=
      ⟨s.markets.length - 1, by have := List.length_pos.mpr h; omega⟩
    rw [hm] at hlt ⊢
    rw [iterate_cursor_down_index m s h, hm]
    have hrw : s.selected_index + (m : Int) + 1 =
        s.selected_index + ((m + 1 : Nat) : Int) * 1 := by push_cast; ring
    rw [hrw, Int.add_mul_emod_self_left]
    exact Int.emod_eq_of_lt h0 hlt
  · intro h
    refine ⟨?_, ?_⟩
    · unfold action_cursor_down
      rw [if_pos (by simp [h])]
    · unfold action_cursor_up
      rw [if_pos (by simp [h])]

/-- C7 witness: on a concrete three-market state with index 1, one
CursorDown yields 2, one CursorUp yields 0, three CursorDowns return to
1, and on an empty-market state CursorDown is a no-op. -/
theorem C7_cursor_wraparound_witness :
    (action_cursor_down ⟨[Json.null, Json.null, Json.null], 1, none, Json.null⟩).selected_index = 2 ∧
    (action_cursor_up ⟨[Json.null, Json.null, Json.null], 1, none, Json.null⟩).selected_index = 0 ∧
    (action_cursor_down^[3] ⟨[Json.null, Json.null, Json.null], 1, none, Json.null⟩).selected_index = 1 ∧
    action_cursor_down ⟨[], 5, none, Json.null⟩ = ⟨[], 5, none, Json.null⟩ := by
  refine ⟨?_, ?_, ?_, ?_⟩
  · have := ((C7_cursor_wraparound ⟨[Json.null, Json.null, Json.null], 1, none, Json.null⟩).1
      (by simp)).1
    rw [this]
    decide
  · have := ((C7_cursor_wraparound ⟨[Json.null, Json.null, Json.null], 1, none, Json.null⟩).1
      (by simp)).2
    rw [this]
    decide
  · exact (C7_cursor_wraparound ⟨[Json.null, Json.null, Json.null], 1, none, Json.null⟩).2.1
      (by simp) (by decide) (by decide)
  · exact ((C7_cursor_wraparound ⟨[], 5, none, Json.null⟩).2.2 rfl).1

/-- Selecting a market never touches the markets list. -/
theorem select_market_markets (fetchBook : Json → Json) (s : TUIState) :
    (action_select_market fetchBook s).markets = s.markets := by
  unfold action_select_market
  dsimp only
  repeat' split
  all_goals rfl

/-- C8: applying SelectMarket followed by ClearSelection leaves the state
in the List-view configuration the claim describes: no selected market,
selected index 0, the empty order book (no bids, no asks), and the
markets list untouched. -/
theorem C8_select_clear_roundtrip :
    ∀ (fetchBook : Json → Json) (s : TUIState),
      (action_clear_selection (action_select_market fetchBook s)).selected_market = none ∧
      (action_clear_selection (action_select_market fetchBook s)).selected_index = 0 ∧
      (action_clear_selection (action_select_market fetchBook s)).orderbook = emptyOrderbook ∧
      (action_clear_selection (action_select_market fetchBook s)).markets = s.markets :=
  fun fetchBook s => ⟨rfl, rfl, rfl, select_market_markets fetchBook s⟩

/-- C9: the TUI and the simple renderer compute the spread identically;
whenever both bids and asks are non-empty lists of price levels, the
projected spread is the first ask level's price minus the first bid
level's price; and for asks [price 0.65] and bids [price 0.60] the
projected spread is 0.05. -/
theorem C9_spread_computation :
    (∀ ob, update_orderbook_spread ob = print_orderbook_spread ob) ∧
    (∀ (bp ap : Json) (qb qa : Rat) (moreBids moreAsks : List Json),
      pyFloat bp = Except.ok qb → pyFloat ap = Except.ok qa →
      update_orderbook_spread
        (Json.obj [("bids", Json.arr (Json.obj [("price", bp)] :: moreBids)),
                   ("asks", Json.arr (Json.obj [("price", ap)] :: moreAsks))]) =
        Except.ok (some (qa - qb))) ∧
    update_orderbook_spread
      (Json.obj [("bids", Json.arr [Json.obj [("price", Json.num 0.60)]]),
                 ("asks", Json.arr [Json.obj [("price", Json.num 0.65)]])]) =
      Except.ok (some 0.05) := by
  refine ⟨fun ob => rfl, ?_, ?_⟩
  · intro bp ap qb qa moreBids moreAsks hb ha
    simp [update_orderbook_spread, pyDictGetE, jlookup, pyTruthy, pyIndex, hb, ha]
  · simp [update_orderbook_spread, pyDictGetE, jlookup, pyTruthy, pyIndex, pyFloat]
    norm_num

/-- C9 witness: the general spread law applied to concrete one-level
books with numeric prices three-fifths and thirteen-twentieths. -/
theorem C9_spread_computation_witness :
    pyFloat (Json.num (mkRat 3 5)) = Except.ok (mkRat 3 5) ∧
    update_orderbook_spread
      (Json.obj [("bids", Json.arr [Json.obj [("price", Json.num (mkRat 3 5))]]),
                 ("asks", Json.arr [Json.obj [("price", Json.num (mkRat 13 20))]])]) =
      Except.ok (some (mkRat 13 20 - mkRat 3 5)) :=
  ⟨rfl, C9_spread_computation.2.1 _ _ _ _ [] [] rfl rfl⟩

/-- Multiplying one half (as produced by parsing the default encoding) by
one hundred yields fifty. -/
theorem half_times_hundred : (mkRat 1 2 : Rat) * 100 = 50 := by
  norm_num [mkRat, Rat.normalize]

/-- C2 (amended): a missing volume or liquidity field degrades to 0 and a
missing yesPrice degrades to 50 percent, but a present non-numeric string
in volume (or any float-coerced field) raises ValueError, which the
renderers propagate to their caller rather than degrading to a default. -/
theorem C2_numeric_coercion_defaults :
    ∀ (fs : List (String × Json)) (v : String),
      (jlookup fs "question" = none → jlookup fs "volume" = none →
       jlookup fs "liquidity" = none → jlookup fs "outcomePrices" = none →
        print_market (Json.obj fs) = Except.ok (Json.str "N/A", 0, 0, 50)) ∧
      (jlookup fs "question" = none → jlookup fs "volume" = none →
       jlookup fs "yesPrice" = none →
        market_list_entry (Json.obj fs) = Except.ok (Json.str "N/A", 0, 50)) ∧
      (jlookup fs "question" = none → jlookup fs "volume" = some (Json.str v) →
       parsePyFloat v.toList = none →
        print_market (Json.obj fs) = Except.error "ValueError") := by
  intro fs v
  refine ⟨?_, ?_, ?_⟩
  · intro h1 h2 h3 h4
    unfold print_market print_market_yes print_market_yes_try
    simp only [pyDictGetE, h1, h2, h3, h4, Option.getD_none]
    have hstep : Except.ok ((Json.str "N/A" : Json), (0 : Rat), (0 : Rat),
        (mkRat 1 2 : Rat) * 100) =
        (Except.ok ((Json.str "N/A" : Json), (0 : Rat), (0 : Rat), (50 : Rat)) :
          Except String (Json × Rat × Rat × Rat)) := by
      rw [half_times_hundred]
    exact Eq.trans rfl hstep
  · intro h1 h2 h3
    unfold market_list_entry
    simp only [pyDictGetE, h1, h2, h3, Option.getD_none]
    have hstep : Except.ok ((Json.str "N/A" : Json), (0 : Rat), (mkRat 1 2 : Rat) * 100) =
        (Except.ok ((Json.str "N/A" : Json), (0 : Rat), (50 : Rat)) :
          Except String (Json × Rat × Rat)) := by
      rw [half_times_hundred]
    exact Eq.trans rfl hstep
  · intro h1 h2 h3
    unfold print_market
    simp only [pyDictGetE, h1, h2, Option.getD_none, Option.getD_some, pyFloat, h3]
    rfl

/-- C2 counterexample: a market whose volume is the non-numeric string
"abc" makes print_market raise ValueError instead of degrading the volume
to 0, and a market whose yesPrice is the non-numeric string "maybe" makes
the TUI market-list renderer raise ValueError instead of degrading the
probability to one half — refuting the claim that these renderers never
raise on non-numeric strings. -/
theorem C2_nonnumeric_raises_counterexample :
    print_market (Json.obj [("volume", Json.str "abc")]) = Except.error "ValueError" ∧
    update_market_list [Json.obj [("yesPrice", Json.str "maybe")]] =
      Except.error "ValueError" :=
  ⟨rfl, rfl⟩

/-- C2 witness: on a market with no fields at all, both renderers produce
the documented defaults, and on the concrete volume "abc" the renderer
raises. -/
theorem C2_numeric_coercion_defaults_witness :
    jlookup ([] : List (String × Json)) "volume" = none ∧
    print_market (Json.obj []) = Except.ok (Json.str "N/A", 0, 0, 50) ∧
    market_list_entry (Json.obj []) = Except.ok (Json.str "N/A", 0, 50) ∧
    parsePyFloat "abc".toList = none ∧
    print_market (Json.obj [("volume", Json.str "abc")]) = Except.error "ValueError" :=
  ⟨rfl,
   (C2_numeric_coercion_defaults [] "abc").1 rfl rfl rfl rfl,
   (C2_numeric_coercion_defaults [] "abc").2.1 rfl rfl rfl,
   rfl,
   (C2_numeric_coercion_defaults [("volume", Json.str "abc")] "abc").2.2 rfl rfl rfl⟩

/-- C6 (amended): the detail renderer's outcome-price normalization never
raises — every internal exception is absorbed into the fallback pair (50
percent, 50 percent) — and the fallback is produced whenever the
outcomePrices field is absent (via the default encoding), is a string on
which JSON decoding fails, or is not a string at all.  A successfully
decoded string is read only at positions 0 and 1, however, so an encoding
malformed beyond those positions yields the decoded leading values, not
the fallback (see the counterexample). -/
theorem C6_outcome_prices_fallback :
    ∀ (fs : List (String × Json)) (s : String) (j : Json),
      (jlookup fs "outcomePrices" = none →
        print_market_detail_prices (Json.obj fs) = (50, 50) ∧
        print_market_yes (Json.obj fs) = 50) ∧
      (jlookup fs "outcomePrices" = some (Json.str s) → json_loads s = none →
        print_market_detail_prices (Json.obj fs) = (50, 50) ∧
        print_market_yes (Json.obj fs) = 50) ∧
      (jlookup fs "outcomePrices" = some j → (∀ t, j ≠ Json.str t) →
        print_market_detail_prices (Json.obj fs) = (50, 50) ∧
        print_market_yes (Json.obj fs) = 50) ∧
      (∀ (m : Json) (e : String), print_market_detail_prices_try m = Except.error e →
        print_market_detail_prices m = (50, 50)) ∧
      (∀ (m : Json) (e : String), print_market_yes_try m = Except.error e →
        print_market_yes m = 50) := by
  intro fs s j
  refine ⟨?_, ?_, ?_, ?_, ?_⟩
  · intro h
    constructor
    · unfold print_market_detail_prices print_market_detail_prices_try
      simp only [pyDictGetE, h, Option.getD_none]
      have hstep : ((mkRat 1 2 : Rat) * 100, (mkRat 1 2 : Rat) * 100) =
          ((50 : Rat), (50 : Rat)) := by
        rw [half_times_hundred]
      exact Eq.trans rfl hstep
    · unfold print_market_yes print_market_yes_try
      simp only [pyDictGetE, h, Option.getD_none]
      exact Eq.trans rfl half_times_hundred
  · intro h hl
    constructor
    · unfold print_market_detail_prices print_market_detail_prices_try
      simp only [pyDictGetE, h, Option.getD_some, hl]
    · unfold print_market_yes print_market_yes_try
      simp only [pyDictGetE, h, Option.getD_some, hl]
  · intro h ht
    constructor
    · unfold print_market_detail_prices print_market_detail_prices_try
      simp only [pyDictGetE, h, Option.getD_some]
    · unfold print_market_yes print_market_yes_try
      simp only [pyDictGetE, h, Option.getD_some]
  · intro m e h
    simp [print_market_detail_prices, h]
  · intro m e h
    simp [print_market_yes, h]

/-- C6 counterexample: the string encoding of the list 0.3, 0.3, "zzz" is
not a valid JSON encoding of a numeric list (its last entry fails float
conversion), yet normalization yields the pair (30 percent, 30 percent)
computed from the first two entries rather than the claimed fallback pair
of 50 percent each. -/
theorem C6_partial_malformed_counterexample :
    validNumericListEncoding "[\"0.3\", \"0.3\", \"zzz\"]" = false ∧
    print_market_detail_prices
      (Json.obj [("outcomePrices", Json.str "[\"0.3\", \"0.3\", \"zzz\"]")]) = (30, 30) ∧
    ((30 : Rat), (30 : Rat)) ≠ ((50 : Rat), (50 : Rat)) := by
  refine ⟨rfl, ?_, by decide⟩
  have hstep : ((mkRat 3 10 : Rat) * 100, (mkRat 3 10 : Rat) * 100) =
      ((30 : Rat), (30 : Rat)) := by
    norm_num [mkRat, Rat.normalize]
  exact Eq.trans rfl hstep

/-- C6 witness: an absent outcomePrices field and an undecodable
outcomePrices string both produce the fallback pair. -/
theorem C6_outcome_prices_fallback_witness :
    jlookup ([] : List (String × Json)) "outcomePrices" = none ∧
    print_market_detail_prices (Json.obj []) = (50, 50) ∧
    json_loads "not json" = none ∧
    print_market_detail_prices (Json.obj [("outcomePrices", Json.str "not json")]) =
      (50, 50) :=
  ⟨rfl,
   ((C6_outcome_prices_fallback [] "x" Json.null).1 rfl).1,
   rfl,
   ((C6_outcome_prices_fallback [("outcomePrices", Json.str "not json")] "not json"
      Json.null).2.1 rfl rfl).1⟩
